import Mathlib

/-!
Verification development for the Govee Homebridge platform plugin
(`src/platform.ts` and `src/config.schema.json`).

The TypeScript platform class is embedded shallowly:
- the mutable fields of `GoveeHomebridgePlatform` (`platformStatus`,
  `isCooldown`, `discoveryCache`, `accessories`) become fields of an explicit
  `PlatformState` record;
- each method and each timer callback body becomes a pure state-transition
  function returning the updated state;
- every external interaction (logger calls, the govee-bt-client radio entry
  points, the Homebridge accessory registry calls, handler construction,
  `setTimeout` arming) is recorded in an append-only `effects` trace;
- `GoveeReading` fields `uuid`, `model`, `address` are typed `string` by the
  radio library, so optional hints are embedded as possibly-empty strings and
  JavaScript truthiness on them is non-emptiness;
- `this.api.hap.uuid.generate` is an external deterministic id generator and is
  passed as an explicit function parameter `gen`;
- the `GoveePlatformAccessory` handler (platformAccessory.ts) is a boundary
  collaborator: construction and `updateReading` calls are recorded as effects,
  and each constructed instance receives a fresh numeric id from a counter so
  that distinct constructions are observable.
-/

/-- A raw advertisement reading from the govee-bt-client radio collaborator.
Sensor payload fields (temperature, humidity, battery, rssi) are opaque to the
routing logic and omitted. -/
structure GoveeReading where
  uuid : String
  model : String
  address : String
deriving DecidableEq

/-- JavaScript truthiness of a string value: non-empty. -/
def jsTruthy (s : String) : Bool := !(s == "")

/-- JavaScript truthiness of a possibly-undefined boolean
(`isCooldown?: Boolean`): `undefined` is falsy. -/
def jsTruthyB : Option Bool → Bool
  | none => false
  | some b => b

/-- The character class removed by JavaScript `String.prototype.trim`
(WhiteSpace and LineTerminator code points). -/
def jsIsWhitespace (c : Char) : Bool :=
  c.toNat = 0x9 || c.toNat = 0xA || c.toNat = 0xB || c.toNat = 0xC ||
  c.toNat = 0xD || c.toNat = 0x20 || c.toNat = 0xA0 || c.toNat = 0x1680 ||
  (0x2000 ≤ c.toNat && c.toNat ≤ 0x200A) ||
  c.toNat = 0x2028 || c.toNat = 0x2029 || c.toNat = 0x202F ||
  c.toNat = 0x205F || c.toNat = 0x3000 || c.toNat = 0xFEFF

/-- Drop leading JS whitespace (the trimStart half of JS trim). -/
def trimStartList (l : List Char) : List Char := l.dropWhile jsIsWhitespace

/-- Drop trailing JS whitespace (the trimEnd half of JS trim). -/
def trimEndList (l : List Char) : List Char :=
  (l.reverse.dropWhile jsIsWhitespace).reverse

/-- JavaScript `s.trim()`. -/
def jsTrim (s : String) : String := ⟨trimEndList (trimStartList s.data)⟩

/-- Remove the first occurrence of an underscore, if any: JavaScript
`s.replace("_", "")` with a string pattern replaces only the first match. -/
def removeFirstUnderscore : List Char → List Char
  | [] => []
  | c :: cs => if c = '_' then cs else c :: removeFirstUnderscore cs

/-- `sanitize` from platform.ts lines 242-244: `s.trim().replace("_", "")`. -/
def sanitize (s : String) : String := ⟨removeFirstUnderscore (jsTrim s).data⟩

/-- The identity-resolution step of `goveeDiscoveredReading`
(platform.ts lines 119-130): start from `reading.uuid`, overwrite with
`reading.model` when that is truthy, and reject when the result is falsy. -/
def resolveDeviceUniqueId (r : GoveeReading) : Option String :=
  let deviceUniqueId := r.uuid
  let deviceUniqueId := if jsTruthy r.model then r.model else deviceUniqueId
  if jsTruthy deviceUniqueId then some deviceUniqueId else none

/-- The persisted-record payload stored in `accessory.context.device`.
Modelled from the spec: the `DeviceContext` interface is declared in
`src/deviceContext.ts`, which is not part of the provided sources; its three
fields are taken from its construction site (platform.ts lines 185-189) and
from the spec wording "sanitized device address, sanitized model name,
identity key". -/
structure DeviceContext where
  address : String
  model : String
  uuid : String
deriving DecidableEq

/-- The free-form `context` object of a Homebridge `PlatformAccessory`, with
the fields platform.ts reads or writes; fields are optional because restored
accessories arrive from disk with whatever context a previous run stored. -/
structure AccessoryContext where
  device : Option DeviceContext := none
  batteryThreshold : Option Int := none
  humidityOffset : Option Int := none
deriving DecidableEq

/-- A Homebridge `PlatformAccessory`: the persisted registry record. -/
structure PlatformAccessory where
  displayName : String
  UUID : String
  context : AccessoryContext
deriving DecidableEq

/-- One constructed `GoveePlatformAccessory` handler instance.  The handler
internals are out of scope; the `id` counter makes distinct constructions
observable, and the record keeps the accessory and reading it was bound to. -/
structure HandlerInstance where
  id : Nat
  accessory : PlatformAccessory
  initialReading : GoveeReading
deriving DecidableEq

/-- The three `setTimeout` call sites in platform.ts. -/
inductive TimerKind where
  | scanStop
  | cooldown
  | stall
deriving DecidableEq

/-- Observable interactions with the collaborators, recorded in order. -/
inductive Effect where
  | logDebug (msg : String)
  | logInfo (msg : String)
  | logWarn (msg : String)
  | logError (msg : String)
  | goveeDebug (flag : Bool)
  | startDiscovery
  | registerScanStart
  | registerScanStop
  | stopDiscovery
  | armTimer (kind : TimerKind) (delayMs : Int)
  | updateAccessories (accs : List PlatformAccessory)
  | registerAccessories (accs : List PlatformAccessory)
  | constructHandler (inst : HandlerInstance)
  | updateReading (handlerId : Nat) (r : GoveeReading)
deriving DecidableEq

/-- The homebridge APIEvent values platform.ts stores in `platformStatus`. -/
inductive APIEvent where
  | didFinishLaunching
  | shutdown
deriving DecidableEq

/-- The plugin configuration surface (config.schema.json). -/
structure GoveePluginConfig where
  name : String
  batteryThreshold : Int
  humidityOffset : Int
  debug : Bool
  scanDuration : Int
  cooldownDuration : Int
  ignoreDeviceNames : List String
deriving DecidableEq

/-- The mutable state of one `GoveeHomebridgePlatform` instance plus the
recorded effect trace. -/
structure PlatformState where
  config : GoveePluginConfig
  platformStatus : Option APIEvent
  isCooldown : Option Bool
  discoveryCache : List (String × HandlerInstance)
  accessories : List PlatformAccessory
  nextHandlerId : Nat
  effects : List Effect
deriving DecidableEq

/-- Record one collaborator interaction. -/
def addEffect (p : PlatformState) (e : Effect) : PlatformState :=
  { p with effects := p.effects ++ [e] }

/-- `discoveryCache.get(k)` on the insertion-ordered JS Map. -/
def cacheGet (c : List (String × HandlerInstance)) (k : String) :
    Option HandlerInstance :=
  (c.find? (fun kv => kv.1 == k)).map (fun kv => kv.2)

/-- `discoveryCache.set(k, v)` on the insertion-ordered JS Map: replace in
place when the key is present, append otherwise. -/
def cacheSet (c : List (String × HandlerInstance)) (k : String)
    (v : HandlerInstance) : List (String × HandlerInstance) :=
  match cacheGet c k with
  | some _ => c.map (fun kv => if kv.1 == k then (k, v) else kv)
  | none => c ++ [(k, v)]

/-- Number of live cache entries stored under a given identity key. -/
def countKey (c : List (String × HandlerInstance)) (k : String) : Nat :=
  (c.filter (fun kv => kv.1 == k)).length

/-- JS object mutation through the reference returned by
`accessories.find(...)`: replace the first list element with that UUID. -/
def updateFirst (l : List PlatformAccessory) (u : String)
    (acc' : PlatformAccessory) : List PlatformAccessory :=
  match l with
  | [] => []
  | a :: rest => if a.UUID == u then acc' :: rest else a :: updateFirst rest u acc'

/-- Outcome classification of one reading-routing step, following the branch
structure of `goveeDiscoveredReading` (platform.ts lines 116-205). -/
inductive RoutingOutcome where
  | Rejected
  | Updated
  | Restored
  | Created
deriving DecidableEq

/-- Which branch of `goveeDiscoveredReading` a reading takes in a state. -/
def routeOutcome (gen : String → String) (p : PlatformState)
    (r : GoveeReading) : RoutingOutcome :=
  match resolveDeviceUniqueId r with
  | none => RoutingOutcome.Rejected
  | some deviceUniqueId =>
    match cacheGet p.discoveryCache (gen deviceUniqueId) with
    | some _ => RoutingOutcome.Updated
    | none =>
      match p.accessories.find? (fun a => a.UUID == gen deviceUniqueId) with
      | some _ => RoutingOutcome.Restored
      | none => RoutingOutcome.Created

/-- `goveeDiscoveredReading` (platform.ts lines 116-205).  `gen` is
`this.api.hap.uuid.generate`. -/
def goveeDiscoveredReading (gen : String → String) (p : PlatformState)
    (r : GoveeReading) : PlatformState :=
  let p0 := addEffect p (Effect.logDebug "Govee reading")
  match resolveDeviceUniqueId r with
  | none =>
    addEffect p0 (Effect.logError "device missing unique identifier. Govee reading: ")
  | some deviceUniqueId =>
    let uuid := gen deviceUniqueId
    let existingAccessory := p0.accessories.find? (fun a => a.UUID == uuid)
    match cacheGet p0.discoveryCache uuid with
    | some cachedInstance =>
      addEffect p0 (Effect.updateReading cachedInstance.id r)
    | none =>
      match existingAccessory with
      | some acc =>
        let p1 := addEffect p0 (Effect.logInfo "Restoring existing accessory from cache:")
        let acc' := { acc with context :=
          { acc.context with
            batteryThreshold := some p1.config.batteryThreshold,
            humidityOffset := some p1.config.humidityOffset } }
        let p2 := { p1 with accessories := updateFirst p1.accessories uuid acc' }
        let p3 := addEffect p2 (Effect.updateAccessories [acc'])
        let inst : HandlerInstance :=
          { id := p3.nextHandlerId, accessory := acc', initialReading := r }
        let p4 := addEffect { p3 with nextHandlerId := p3.nextHandlerId + 1 }
          (Effect.constructHandler inst)
        { p4 with discoveryCache := cacheSet p4.discoveryCache uuid inst }
      | none =>
        let displayName := sanitize r.model
        let p1 := addEffect p0 (Effect.logInfo "Adding new accessory:")
        let acc : PlatformAccessory :=
          { displayName := displayName, UUID := uuid,
            context :=
              { device := some
                  { address := sanitize r.address, model := sanitize r.model,
                    uuid := r.uuid },
                batteryThreshold := some p1.config.batteryThreshold,
                humidityOffset := some p1.config.humidityOffset } }
        let inst : HandlerInstance :=
          { id := p1.nextHandlerId, accessory := acc, initialReading := r }
        let p2 := addEffect { p1 with nextHandlerId := p1.nextHandlerId + 1 }
          (Effect.constructHandler inst)
        let p3 := addEffect p2 (Effect.registerAccessories [acc])
        { p3 with discoveryCache := cacheSet p3.discoveryCache uuid inst }

/-- Arm a `setTimeout`: recorded as an effect. -/
def armTimer (p : PlatformState) (k : TimerKind) (d : Int) : PlatformState :=
  addEffect p (Effect.armTimer k d)

/-- `startScanCycle` (platform.ts lines 102-114): start discovery, register
the scan-start and scan-stop callbacks, and arm the scan-duration timer only
when `config.scanDuration > 0`. -/
def startScanCycle (p : PlatformState) : PlatformState :=
  let p1 := addEffect p Effect.startDiscovery
  let p2 := addEffect p1 Effect.registerScanStart
  let p3 := addEffect p2 Effect.registerScanStop
  if p3.config.scanDuration > 0 then
    let p4 := addEffect p3 (Effect.logDebug "Stop scanning after ")
    armTimer p4 TimerKind.scanStop p3.config.scanDuration
  else p3

/-- Body of the scan-duration timer callback (platform.ts lines 108-112):
set the cooldown-pending flag and request a radio stop. -/
def fireScanStopTimer (p : PlatformState) : PlatformState :=
  let p1 := { p with isCooldown := some true }
  let p2 := addEffect p1 (Effect.logDebug "Start cooldown for ")
  addEffect p2 Effect.stopDiscovery

/-- Truthiness of `!this.platformStatus || this.platformStatus === SHUTDOWN`. -/
def notRunning : Option APIEvent → Bool
  | none => true
  | some APIEvent.shutdown => true
  | some APIEvent.didFinishLaunching => false

/-- `goveeScanStopped` (platform.ts lines 211-240): ignore when not running,
arm the cooldown timer when cooldown is pending, otherwise arm the fixed
5000 ms stall-recovery timer. -/
def goveeScanStopped (p : PlatformState) : PlatformState :=
  let p1 := addEffect p (Effect.logInfo "Govee Scan Stopped")
  if notRunning p1.platformStatus then p1
  else if jsTruthyB p1.isCooldown then
    let p2 := addEffect p1 (Effect.logDebug "Cooldown started")
    armTimer p2 TimerKind.cooldown p2.config.cooldownDuration
  else
    armTimer p1 TimerKind.stall 5000

/-- Body of the cooldown timer callback (platform.ts lines 220-223): clear
the cooldown-pending flag and start a new scan cycle. -/
def fireCooldownTimer (p : PlatformState) : PlatformState :=
  let p1 := { p with isCooldown := some false }
  startScanCycle p1

/-- Body of the stall-recovery timer callback (platform.ts lines 230-239):
re-check the running flag, then warn and re-invoke only the radio start-scan
entry point. -/
def fireStallTimer (p : PlatformState) : PlatformState :=
  if notRunning p.platformStatus then p
  else
    let p1 := addEffect p (Effect.logWarn "Govee discovery stopped while Homebridge is running.")
    let p2 := addEffect p1 (Effect.logInfo "Restart Discovery")
    addEffect p2 Effect.startDiscovery

/-- `goveeScanStarted` (platform.ts lines 207-209): informational only. -/
def goveeScanStarted (p : PlatformState) : PlatformState :=
  addEffect p (Effect.logInfo "Govee Scan Started")

/-- State right after the constructor body ran (platform.ts lines 42-67). -/
def initialPlatform (cfg : GoveePluginConfig) : PlatformState :=
  { config := cfg
    platformStatus := none
    isCooldown := none
    discoveryCache := []
    accessories := []
    nextHandlerId := 0
    effects := [Effect.logInfo "Finished initializing platform:"] }

/-- `configureAccessory` (platform.ts lines 73-78). -/
def configureAccessory (p : PlatformState) (acc : PlatformAccessory) :
    PlatformState :=
  let p1 := addEffect p (Effect.logInfo "Loading accessory from cache:")
  { p1 with accessories := p1.accessories ++ [acc] }

/-- The didFinishLaunching handler (platform.ts lines 53-62) followed by
`discoverDevices` (lines 85-96). -/
def didFinishLaunching (p : PlatformState) : PlatformState :=
  let p1 := addEffect p (Effect.logDebug "Executed didFinishLaunching callback")
  let p2 := { p1 with platformStatus := some APIEvent.didFinishLaunching }
  let p3 := { p2 with isCooldown := some false }
  let p4 := addEffect p3 (Effect.logDebug "Start discovery")
  let p5 := if p4.config.debug then addEffect p4 (Effect.goveeDebug true) else p4
  startScanCycle p5

/-- The shutdown handler (platform.ts lines 64-66). -/
def onShutdown (p : PlatformState) : PlatformState :=
  { p with platformStatus := some APIEvent.shutdown }

/-- Recognize a registry-registration effect. -/
def isRegisterEffect : Effect → Bool
  | Effect.registerAccessories _ => true
  | _ => false

/-- Base configuration used for concrete scenario states. -/
def cfgBase : GoveePluginConfig :=
  { name := "Govee", batteryThreshold := 25, humidityOffset := 0, debug := false,
    scanDuration := 0, cooldownDuration := 0, ignoreDeviceNames := [] }

/-- Duty-cycled configuration: 1000 ms scan window, 500 ms cooldown. -/
def cfgDuty : GoveePluginConfig :=
  { cfgBase with scanDuration := 1000, cooldownDuration := 500 }

/-- Configuration listing a device name in IgnoreDeviceNames. -/
def cfgIgnore : GoveePluginConfig :=
  { cfgBase with ignoreDeviceNames := ["Govee_H5075"] }

/-- The context refresh performed on a restored accessory
(platform.ts lines 161-162). -/
def refreshedAccessory (cfg : GoveePluginConfig) (acc : PlatformAccessory) :
    PlatformAccessory :=
  { acc with context :=
    { acc.context with
      batteryThreshold := some cfg.batteryThreshold,
      humidityOffset := some cfg.humidityOffset } }

/-- A persisted accessory record as restored from disk on a prior run. -/
def accRestored : PlatformAccessory :=
  ⟨"GoveeH5075", "Govee_H5075", ⟨some ⟨"aa", "GoveeH5075", ""⟩, some 10, some 3⟩⟩

theorem dropWhile_twice (p : Char → Bool) (l : List Char) :
    (l.dropWhile p).dropWhile p = l.dropWhile p := by
  induction l with
  | nil => rfl
  | cons a l ih =>
    cases h : p a with
    | true => simp [List.dropWhile_cons, h, ih]
    | false => simp [List.dropWhile_cons, h]

theorem exists_append_dropWhile (p : Char → Bool) (l : List Char) :
    ∃ t, t ++ l.dropWhile p = l := by
  induction l with
  | nil => exact ⟨[], rfl⟩
  | cons a l ih =>
    cases h : p a with
    | true =>
      obtain ⟨t, ht⟩ := ih
      exact ⟨a :: t, by simp [List.dropWhile_cons, h, ht]⟩
    | false => exact ⟨[], by simp [List.dropWhile_cons, h]⟩

theorem dropWhile_length_le (p : Char → Bool) (l : List Char) :
    (l.dropWhile p).length ≤ l.length := by
  induction l with
  | nil => simp
  | cons a l ih =>
    cases h : p a with
    | true =>
      simp only [List.dropWhile_cons, h, if_true]
      exact Nat.le_succ_of_le ih
    | false => simp [List.dropWhile_cons, h]

theorem dropWhile_cons_self (p : Char → Bool) (a : Char) (t : List Char)
    (h : (a :: t).dropWhile p = a :: t) : p a = false := by
  cases hpa : p a with
  | false => rfl
  | true =>
    rw [List.dropWhile_cons, if_pos hpa] at h
    have hlen := congrArg List.length h
    have hle := dropWhile_length_le p t
    simp at hlen
    omega

theorem trimEnd_twice (l : List Char) :
    trimEndList (trimEndList l) = trimEndList l := by
  unfold trimEndList
  rw [List.reverse_reverse, dropWhile_twice]

theorem trimStart_trimEnd (l : List Char) (h : trimStartList l = l) :
    trimStartList (trimEndList l) = trimEndList l := by
  cases he : trimEndList l with
  | nil => rfl
  | cons b bt =>
    obtain ⟨t, ht⟩ := exists_append_dropWhile jsIsWhitespace l.reverse
    have hrev := congrArg List.reverse ht
    rw [List.reverse_append, List.reverse_reverse] at hrev
    have hEnd : trimEndList l ++ t.reverse = l := hrev
    rw [he] at hEnd
    have hb : jsIsWhitespace b = false := by
      have hcons : (b :: (bt ++ t.reverse)).dropWhile jsIsWhitespace
          = b :: (bt ++ t.reverse) := by
        have := h
        unfold trimStartList at this
        rw [← hEnd] at this
        simpa using this
      exact dropWhile_cons_self _ _ _ hcons
    unfold trimStartList
    rw [List.dropWhile_cons, hb]
    simp

theorem trimStart_twice (l : List Char) :
    trimStartList (trimStartList l) = trimStartList l :=
  dropWhile_twice jsIsWhitespace l

theorem jsTrim_idem (s : String) : jsTrim (jsTrim s) = jsTrim s := by
  show (⟨trimEndList (trimStartList (trimEndList (trimStartList s.data)))⟩ : String)
      = ⟨trimEndList (trimStartList s.data)⟩
  rw [trimStart_trimEnd (trimStartList s.data) (trimStart_twice s.data), trimEnd_twice]

theorem removeFirstUnderscore_of_not_mem (l : List Char) (h : '_' ∉ l) :
    removeFirstUnderscore l = l := by
  induction l with
  | nil => rfl
  | cons a l ih =>
    simp at h
    rw [removeFirstUnderscore, if_neg (by exact fun hc => h.1 hc.symm), ih h.2]

theorem sanitize_idem_of_no_underscore (s : String)
    (h : '_' ∉ (jsTrim s).data) : sanitize (sanitize s) = sanitize s := by
  have hs : sanitize s = jsTrim s := by
    unfold sanitize
    rw [removeFirstUnderscore_of_not_mem _ h]
  rw [hs]
  show (⟨removeFirstUnderscore (jsTrim (jsTrim s)).data⟩ : String) = jsTrim s
  rw [jsTrim_idem]
  exact hs

/-- Claim C1: refuted at a concrete reading carrying both hints.  With
`identityHint` (`uuid`) equal to "U_1" and `modelHint` (`model`) equal to
"M1", the resolver keys on the model hint, not on the (normalized) identity
hint as the claim states. -/
theorem C1_counterexample :
    resolveDeviceUniqueId { uuid := "U_1", model := "M1", address := "a" } = some "M1"
  ∧ resolveDeviceUniqueId { uuid := "U_1", model := "M1", address := "a" }
      ≠ some (sanitize "U_1")
  ∧ sanitize "U_1" = "U1" := by decide

/-- Claim C1 (amended): the resolver prefers `modelHint` when it is present
and non-empty, uses `identityHint` only as the fallback, applies no
normalization to the chosen value, and returns Rejected (`none`) when both are
absent or empty; when `modelHint` is non-empty the routing outcome does not
depend on `identityHint` at all. -/
theorem C1_amended (r : GoveeReading) :
    (resolveDeviceUniqueId r =
      if r.model = "" then (if r.uuid = "" then none else some r.uuid)
      else some r.model)
  ∧ (∀ (gen : String → String) (p : PlatformState) (u : String),
      r.model ≠ "" →
        routeOutcome gen p { r with uuid := u } = routeOutcome gen p r) := by
  constructor
  · by_cases hm : r.model = "" <;> by_cases hu : r.uuid = "" <;>
      simp [resolveDeviceUniqueId, jsTruthy, hm, hu]
  · intro gen p u hm
    simp [routeOutcome, resolveDeviceUniqueId, jsTruthy, hm]

theorem C1_witness :
    routeOutcome (fun s => s) (initialPlatform cfgBase)
      { uuid := "zz", model := "M1", address := "a" }
    = routeOutcome (fun s => s) (initialPlatform cfgBase)
      { uuid := "U_1", model := "M1", address := "a" } :=
  (C1_amended { uuid := "U_1", model := "M1", address := "a" }).2
    (fun s => s) (initialPlatform cfgBase) "zz" (by decide)

/-- Claim C2: refuted.  `sanitize` is not idempotent (a second underscore
survives one application but not two), and the resolver does not apply
`sanitize` to the identity key at all, so the scenario value " ABC_123 " does
not resolve to the key "ABC123". -/
theorem C2_counterexample :
    sanitize (sanitize "A__B") ≠ sanitize "A__B"
  ∧ sanitize "A__B" = "A_B"
  ∧ resolveDeviceUniqueId { uuid := "", model := " ABC_123 ", address := "a" }
      ≠ some "ABC123"
  ∧ resolveDeviceUniqueId { uuid := "", model := " ABC_123 ", address := "a" }
      = some " ABC_123 " := by decide

/-- Claim C2 (amended): `sanitize` trims whitespace and strips only the first
underscore occurrence; it is idempotent on every string whose trimmed form
contains no underscore, and it maps both scenario values "ABC_123" and
" ABC_123 " to "ABC123"; but the resolver uses the raw hint as identity key,
so those two raw values resolve to the distinct keys "ABC_123" and
" ABC_123 ". -/
theorem C2_amended :
    (∀ s : String, '_' ∉ (jsTrim s).data → sanitize (sanitize s) = sanitize s)
  ∧ sanitize "ABC_123" = "ABC123"
  ∧ sanitize " ABC_123 " = "ABC123"
  ∧ resolveDeviceUniqueId { uuid := "", model := "ABC_123", address := "a" }
      = some "ABC_123"
  ∧ resolveDeviceUniqueId { uuid := "", model := " ABC_123 ", address := "a" }
      = some " ABC_123 " :=
  ⟨fun s h => sanitize_idem_of_no_underscore s h,
   by decide, by decide, by decide, by decide⟩

theorem C2_witness : sanitize (sanitize "ABC123") = sanitize "ABC123" :=
  C2_amended.1 "ABC123" (by decide)

/-- Claim C3: the code violates it.  In a run with a 1000 ms scan window and a
500 ms cooldown, arm the cooldown timer, then receive the shutdown signal.
When the pending cooldown timer fires it does not re-check the running flag:
it clears the cooldown flag and starts a full new scan cycle (radio start-scan
call, callback registrations, a fresh scan-duration timer).  A pending
scan-duration timer likewise still mutates the cooldown flag and calls the
radio stop entry point.  Only the stall-recovery timer is a no-op. -/
theorem C3_code_bug :
    (let p2 := goveeScanStopped (fireScanStopTimer (didFinishLaunching (initialPlatform cfgDuty)))
     let p3 := onShutdown p2
     let p4 := fireCooldownTimer p3
     p3.platformStatus = some APIEvent.shutdown
     ∧ p4.effects = p3.effects ++ [Effect.startDiscovery, Effect.registerScanStart,
         Effect.registerScanStop, Effect.logDebug "Stop scanning after ",
         Effect.armTimer TimerKind.scanStop 1000]
     ∧ p3.isCooldown = some true
     ∧ p4.isCooldown = some false
     ∧ (fireScanStopTimer p3).effects
         = p3.effects ++ [Effect.logDebug "Start cooldown for ", Effect.stopDiscovery]
     ∧ fireStallTimer p3 = p3) := by decide

/-- Claim C5: the code violates it.  With IgnoreDeviceNames listing the
device name "Govee_H5075", a reading for that device is still routed: the
outcome is Created, a handler is constructed and cached under the key, and a
new record is registered with the registry.  The code never reads the
IgnoreDeviceNames option. -/
theorem C5_code_bug :
    (let p0 := didFinishLaunching (initialPlatform cfgIgnore)
     let r : GoveeReading := { uuid := "", model := "Govee_H5075", address := "aa:bb" }
     let p1 := goveeDiscoveredReading (fun s => s) p0 r
     "Govee_H5075" ∈ p0.config.ignoreDeviceNames
     ∧ routeOutcome (fun s => s) p0 r = RoutingOutcome.Created
     ∧ countKey p1.discoveryCache "Govee_H5075" = 1
     ∧ (p1.effects.filter isRegisterEffect).length = 1
     ∧ p1.nextHandlerId = 1) := by decide

theorem cacheSet_of_none (c : List (String × HandlerInstance)) (k : String)
    (v : HandlerInstance) (h : cacheGet c k = none) :
    cacheSet c k v = c ++ [(k, v)] := by
  unfold cacheSet
  rw [h]

theorem cacheGet_append_self (c : List (String × HandlerInstance)) (k : String)
    (v : HandlerInstance) (h : cacheGet c k = none) :
    cacheGet (c ++ [(k, v)]) k = some v := by
  induction c with
  | nil => simp [cacheGet, List.find?]
  | cons a c ih =>
    cases hak : (a.1 == k) with
    | true => simp [cacheGet, List.find?, hak] at h
    | false =>
      simp only [cacheGet, List.cons_append, List.find?, hak] at h ⊢
      exact ih h

theorem countKey_append_of_none (c : List (String × HandlerInstance))
    (k : String) (v : HandlerInstance) (h : cacheGet c k = none) :
    countKey (c ++ [(k, v)]) k = 1 := by
  induction c with
  | nil => simp [countKey]
  | cons a c ih =>
    cases hak : (a.1 == k) with
    | true => simp [cacheGet, List.find?, hak] at h
    | false =>
      simp only [cacheGet, List.find?, hak] at h
      simp only [countKey, List.cons_append, List.filter, hak]
      exact ih h

/-- Claim C6: confirmed.  A reading with both hints empty resolves to
Rejected; `goveeDiscoveredReading` only logs (a debug line and the error
line) and leaves the cache, the accessory list, the handler counter, and
every collaborator untouched. -/
theorem C6_rejected_no_mutation (gen : String → String) (p : PlatformState)
    (r : GoveeReading) (hm : r.model = "") (hu : r.uuid = "") :
    resolveDeviceUniqueId r = none
  ∧ routeOutcome gen p r = RoutingOutcome.Rejected
  ∧ goveeDiscoveredReading gen p r
      = { p with effects := p.effects ++ [Effect.logDebug "Govee reading",
          Effect.logError "device missing unique identifier. Govee reading: "] } := by
  have hres : resolveDeviceUniqueId r = none := by
    simp [resolveDeviceUniqueId, jsTruthy, hm, hu]
  refine ⟨hres, ?_, ?_⟩
  · simp [routeOutcome, hres]
  · simp [goveeDiscoveredReading, hres, addEffect]

theorem C6_witness :
    resolveDeviceUniqueId { uuid := "", model := "", address := "addr" } = none :=
  (C6_rejected_no_mutation (fun s => s) (initialPlatform cfgBase)
    { uuid := "", model := "", address := "addr" } rfl rfl).1

/-- Claim C7: confirmed.  When the resolved key is not in the live cache but
a persisted accessory with that UUID exists, routing takes the Restored
branch: the record gets its batteryThreshold and humidityOffset refreshed
from the current configuration and is pushed through updatePlatformAccessories,
a handler bound to that refreshed record is constructed and inserted into the
live cache, and no registration of a new record happens. -/
theorem C7_restored (gen : String → String) (p : PlatformState)
    (r : GoveeReading) (d : String) (acc : PlatformAccessory)
    (hres : resolveDeviceUniqueId r = some d)
    (hcache : cacheGet p.discoveryCache (gen d) = none)
    (hacc : p.accessories.find? (fun a => a.UUID == gen d) = some acc) :
    routeOutcome gen p r = RoutingOutcome.Restored
  ∧ goveeDiscoveredReading gen p r
      = { p with
          accessories := updateFirst p.accessories (gen d)
            (refreshedAccessory p.config acc),
          discoveryCache := p.discoveryCache ++
            [(gen d, ⟨p.nextHandlerId, refreshedAccessory p.config acc, r⟩)],
          nextHandlerId := p.nextHandlerId + 1,
          effects := p.effects ++ [Effect.logDebug "Govee reading",
            Effect.logInfo "Restoring existing accessory from cache:",
            Effect.updateAccessories [refreshedAccessory p.config acc],
            Effect.constructHandler
              ⟨p.nextHandlerId, refreshedAccessory p.config acc, r⟩] }
  ∧ (goveeDiscoveredReading gen p r).effects.filter isRegisterEffect
      = p.effects.filter isRegisterEffect := by
  have hmain : goveeDiscoveredReading gen p r
      = { p with
          accessories := updateFirst p.accessories (gen d)
            (refreshedAccessory p.config acc),
          discoveryCache := p.discoveryCache ++
            [(gen d, ⟨p.nextHandlerId, refreshedAccessory p.config acc, r⟩)],
          nextHandlerId := p.nextHandlerId + 1,
          effects := p.effects ++ [Effect.logDebug "Govee reading",
            Effect.logInfo "Restoring existing accessory from cache:",
            Effect.updateAccessories [refreshedAccessory p.config acc],
            Effect.constructHandler
              ⟨p.nextHandlerId, refreshedAccessory p.config acc, r⟩] } := by
    simp [goveeDiscoveredReading, hres, addEffect, hcache, hacc, cacheSet,
      refreshedAccessory]
  refine ⟨?_, hmain, ?_⟩
  · simp [routeOutcome, hres, hcache, hacc]
  · rw [hmain]
    simp [isRegisterEffect, List.filter_append]

theorem C7_witness :
    routeOutcome (fun s => s)
      (didFinishLaunching (configureAccessory (initialPlatform cfgBase) accRestored))
      { uuid := "", model := "Govee_H5075", address := "aa" }
    = RoutingOutcome.Restored :=
  (C7_restored (fun s => s)
    (didFinishLaunching (configureAccessory (initialPlatform cfgBase) accRestored))
    { uuid := "", model := "Govee_H5075", address := "aa" }
    "Govee_H5075" accRestored (by decide) (by decide) (by decide)).1

theorem route_cache_append (gen : String → String) (p : PlatformState)
    (r : GoveeReading) (k : String)
    (hres : resolveDeviceUniqueId r = some k)
    (hfresh : cacheGet p.discoveryCache (gen k) = none) :
    ∃ inst, (goveeDiscoveredReading gen p r).discoveryCache
      = p.discoveryCache ++ [(gen k, inst)] := by
  cases hacc : p.accessories.find? (fun a => a.UUID == gen k) with
  | some acc =>
    refine ⟨⟨p.nextHandlerId, refreshedAccessory p.config acc, r⟩, ?_⟩
    simp [goveeDiscoveredReading, hres, addEffect, hfresh, hacc, cacheSet,
      refreshedAccessory]
  | none =>
    refine ⟨⟨p.nextHandlerId,
      ⟨sanitize r.model, gen k,
        ⟨some ⟨sanitize r.address, sanitize r.model, r.uuid⟩,
         some p.config.batteryThreshold, some p.config.humidityOffset⟩⟩, r⟩, ?_⟩
    simp [goveeDiscoveredReading, hres, addEffect, hfresh, hacc, cacheSet]

/-- Claim C4: refuted on the normalization part.  The two readings carry the
model hints "A_B" and "AB", whose sanitized (normalized) forms agree, so the
claim as stated applies to them; yet routing the second reading after the
first takes Created again: a second handler is constructed and a second
record registered, because the code keys the cache on the raw hint. -/
theorem C4_counterexample :
    (let p0 := didFinishLaunching (initialPlatform cfgBase)
     let r1 : GoveeReading := { uuid := "", model := "A_B", address := "x" }
     let r2 : GoveeReading := { uuid := "", model := "AB", address := "x" }
     let p1 := goveeDiscoveredReading (fun s => s) p0 r1
     let p2 := goveeDiscoveredReading (fun s => s) p1 r2
     sanitize "A_B" = sanitize "AB"
     ∧ resolveDeviceUniqueId r1 = some "A_B"
     ∧ resolveDeviceUniqueId r2 = some "AB"
     ∧ routeOutcome (fun s => s) p1 r2 = RoutingOutcome.Created
     ∧ p2.nextHandlerId = 2
     ∧ (p2.effects.filter isRegisterEffect).length = 2) := by decide

/-- Claim C4 (amended): for readings that resolve to equal raw identity keys
(the code applies no normalization), routing the first reading installs
exactly one cache entry for the key, and routing the second yields Updated:
the existing handler receives updateReading, no second handler is
constructed, no registry call happens, and the state is unchanged except for
the two appended log and updateReading effects. -/
theorem C4_amended (gen : String → String) (p : PlatformState)
    (r1 r2 : GoveeReading) (k : String)
    (h1 : resolveDeviceUniqueId r1 = some k)
    (h2 : resolveDeviceUniqueId r2 = some k)
    (hfresh : cacheGet p.discoveryCache (gen k) = none) :
    countKey (goveeDiscoveredReading gen p r1).discoveryCache (gen k) = 1
  ∧ routeOutcome gen (goveeDiscoveredReading gen p r1) r2 = RoutingOutcome.Updated
  ∧ ∃ inst,
      cacheGet (goveeDiscoveredReading gen p r1).discoveryCache (gen k) = some inst
      ∧ goveeDiscoveredReading gen (goveeDiscoveredReading gen p r1) r2
        = { goveeDiscoveredReading gen p r1 with
            effects := (goveeDiscoveredReading gen p r1).effects
              ++ [Effect.logDebug "Govee reading",
                  Effect.updateReading inst.id r2] } := by
  obtain ⟨inst, hc⟩ := route_cache_append gen p r1 k h1 hfresh
  have hget : cacheGet (goveeDiscoveredReading gen p r1).discoveryCache (gen k)
      = some inst := by
    rw [hc]
    exact cacheGet_append_self _ _ _ hfresh
  refine ⟨?_, ?_, inst, hget, ?_⟩
  · rw [hc]
    exact countKey_append_of_none _ _ _ hfresh
  · simp [routeOutcome, h2, hget]
  · generalize goveeDiscoveredReading gen p r1 = p1 at hget ⊢
    simp [goveeDiscoveredReading, h2, addEffect, hget]

theorem C4_witness :
    routeOutcome (fun s => s)
      (goveeDiscoveredReading (fun s => s) (didFinishLaunching (initialPlatform cfgBase))
        { uuid := "", model := "H5075M", address := "x" })
      { uuid := "", model := "H5075M", address := "y" }
    = RoutingOutcome.Updated :=
  (C4_amended (fun s => s) (didFinishLaunching (initialPlatform cfgBase))
    { uuid := "", model := "H5075M", address := "x" }
    { uuid := "", model := "H5075M", address := "y" }
    "H5075M" (by decide) (by decide) (by decide)).2.1

/-- Claim C8: confirmed.  With scanDuration = 0, `startScanCycle` emits only
the three radio calls and arms no timer at all, so scanning continues until
an external stop; an unsolicited scan stop in that state (running, cooldown
flag false) arms the fixed 5000 ms stall-recovery timer, and no cooldown
timer and no scan-duration timer is ever armed in the whole exchange. -/
theorem C8_scan_forever (p : PlatformState)
    (hdur : p.config.scanDuration = 0)
    (hrun : p.platformStatus = some APIEvent.didFinishLaunching)
    (hcd : p.isCooldown = some false) :
    startScanCycle p = { p with effects := p.effects ++
        [Effect.startDiscovery, Effect.registerScanStart, Effect.registerScanStop] }
  ∧ goveeScanStopped (startScanCycle p)
      = { p with effects := p.effects ++
          [Effect.startDiscovery, Effect.registerScanStart, Effect.registerScanStop,
           Effect.logInfo "Govee Scan Stopped", Effect.armTimer TimerKind.stall 5000] }
  ∧ (∀ dl, Effect.armTimer TimerKind.cooldown dl ∉
        (goveeScanStopped (startScanCycle p)).effects.drop p.effects.length)
  ∧ (∀ dl, Effect.armTimer TimerKind.scanStop dl ∉
        (goveeScanStopped (startScanCycle p)).effects.drop p.effects.length) := by
  have h1 : startScanCycle p = { p with effects := p.effects ++
      [Effect.startDiscovery, Effect.registerScanStart, Effect.registerScanStop] } := by
    simp [startScanCycle, addEffect, armTimer, hdur]
  have h2 : goveeScanStopped (startScanCycle p)
      = { p with effects := p.effects ++
          [Effect.startDiscovery, Effect.registerScanStart, Effect.registerScanStop,
           Effect.logInfo "Govee Scan Stopped", Effect.armTimer TimerKind.stall 5000] } := by
    rw [h1]
    simp [goveeScanStopped, addEffect, armTimer, notRunning, hrun, hcd, jsTruthyB]
  refine ⟨h1, h2, ?_, ?_⟩ <;>
  · intro dl
    rw [h2]
    simp [List.drop_left]

theorem C8_witness :
    Effect.armTimer TimerKind.cooldown 500 ∉
      (goveeScanStopped (startScanCycle (didFinishLaunching (initialPlatform cfgBase)))).effects.drop
        (didFinishLaunching (initialPlatform cfgBase)).effects.length :=
  (C8_scan_forever (didFinishLaunching (initialPlatform cfgBase))
    (by decide) (by decide) (by decide)).2.2.1 500

/-- Claim C9: confirmed.  An unsolicited scan stop while running with no
cooldown pending arms a stall-recovery timer with the fixed 5000 ms delay for
every configuration; the stall callback, when the platform is still running,
appends exactly a warning, an info line, and one radio start-scan call (no
scan-start or scan-stop callback registration), and when the platform is no
longer running it leaves the state completely unchanged. -/
theorem C9_stall_recovery (p q : PlatformState)
    (hrun : p.platformStatus = some APIEvent.didFinishLaunching)
    (hcd : jsTruthyB p.isCooldown = false)
    (hnot : notRunning q.platformStatus = true) :
    goveeScanStopped p
      = { p with effects := p.effects ++
          [Effect.logInfo "Govee Scan Stopped", Effect.armTimer TimerKind.stall 5000] }
  ∧ fireStallTimer p
      = { p with effects := p.effects ++
          [Effect.logWarn "Govee discovery stopped while Homebridge is running.",
           Effect.logInfo "Restart Discovery", Effect.startDiscovery] }
  ∧ Effect.registerScanStart ∉
      [Effect.logWarn "Govee discovery stopped while Homebridge is running.",
       Effect.logInfo "Restart Discovery", Effect.startDiscovery]
  ∧ Effect.registerScanStop ∉
      [Effect.logWarn "Govee discovery stopped while Homebridge is running.",
       Effect.logInfo "Restart Discovery", Effect.startDiscovery]
  ∧ fireStallTimer q = q := by
  refine ⟨?_, ?_, by decide, by decide, ?_⟩
  · simp [goveeScanStopped, addEffect, armTimer, notRunning, hrun, hcd]
  · simp [fireStallTimer, notRunning, hrun, addEffect]
  · simp [fireStallTimer, hnot]

theorem C9_witness :
    fireStallTimer (onShutdown (didFinishLaunching (initialPlatform cfgBase)))
      = onShutdown (didFinishLaunching (initialPlatform cfgBase)) :=
  (C9_stall_recovery (didFinishLaunching (initialPlatform cfgBase))
    (onShutdown (didFinishLaunching (initialPlatform cfgBase)))
    (by decide) (by decide) (by decide)).2.2.2.2

/-- Claim C10: confirmed.  `goveeDiscoveredReading` never consults the
running flag: overriding `platformStatus` with any value (including the
shutdown marker) before routing changes nothing except that same field in the
result, so the routing outcome and every side effect after shutdown are
exactly as while running. -/
theorem C10_routing_ignores_status (gen : String → String) (p : PlatformState)
    (r : GoveeReading) (st : Option APIEvent) :
    goveeDiscoveredReading gen { p with platformStatus := st } r
      = { goveeDiscoveredReading gen p r with platformStatus := st }
  ∧ routeOutcome gen { p with platformStatus := st } r = routeOutcome gen p r := by
  constructor
  · cases hres : resolveDeviceUniqueId r with
    | none => simp [goveeDiscoveredReading, hres, addEffect]
    | some d =>
      cases hc : cacheGet p.discoveryCache (gen d) with
      | some inst => simp [goveeDiscoveredReading, hres, hc, addEffect]
      | none =>
        cases hacc : p.accessories.find? (fun a => a.UUID == gen d) with
        | some acc => simp [goveeDiscoveredReading, hres, hc, hacc, addEffect]
        | none => simp [goveeDiscoveredReading, hres, hc, hacc, addEffect]
  · cases hres : resolveDeviceUniqueId r with
    | none => simp [routeOutcome, hres]
    | some d =>
      cases hc : cacheGet p.discoveryCache (gen d) with
      | some inst => simp [routeOutcome, hres, hc]
      | none =>
        cases hacc : p.accessories.find? (fun a => a.UUID == gen d) with
        | some acc => simp [routeOutcome, hres, hc, hacc]
        | none => simp [routeOutcome, hres, hc, hacc]
